import Mathlib

/-!
Shallow embedding of the product-management-api repository
(Express + Mongoose, JavaScript): the Product mongoose schema
(src/models/Product.js), the auth and product routers
(src/routes/authRoutes.js), and the route mounting from app.js.
Dates are modelled as natural numbers (milliseconds), JSON numbers as
integers, and the document store as an in-memory list with a
server-assigned id counter, matching the spec's repository abstraction
(create/find/findById/updateById/deleteById).
-/

namespace PMApi

/-- The valid values of the `inventoryStatus` enum in `productSchema`
(src/models/Product.js): `enum: ['INSTOCK', 'LOWSTOCK', 'OUTOFSTOCK']`. -/
def validEnum (s : String) : Bool :=
  s = "INSTOCK" || s = "LOWSTOCK" || s = "OUTOFSTOCK"

/-- A persisted product document, following `productSchema`
(src/models/Product.js).  `id` is the store-assigned `_id`; optional
schema fields (no `required: true`) are `Option`s. -/
structure Product where
  id : Nat
  code : String
  name : String
  description : Option String
  image : Option String
  category : Option String
  price : Int
  quantity : Int
  internalReference : Option String
  shellId : Option Int
  inventoryStatus : String
  rating : Int
  createdAt : Nat
  updatedAt : Nat
deriving DecidableEq, Repr

/-- A JSON request body for the product routes: each schema field is
present (`some`) or absent (`none`).  Mongoose casts present fields and
applies schema defaults to absent ones. -/
structure ProductBody where
  code : Option String := none
  name : Option String := none
  description : Option String := none
  image : Option String := none
  category : Option String := none
  price : Option Int := none
  quantity : Option Int := none
  internalReference : Option String := none
  shellId : Option Int := none
  inventoryStatus : Option String := none
  rating : Option Int := none
  createdAt : Option Nat := none
  updatedAt : Option Nat := none
deriving DecidableEq, Repr

/-- The "products" collection plus the store's id generator. -/
structure Store where
  products : List Product
  nextId : Nat
deriving DecidableEq, Repr

/-- Mongoose document construction plus `save()` validation for
`new Product(req.body)`: the `required: true` fields (`code`, `name`,
`price`, `quantity`, `inventoryStatus`) must be present, and
`inventoryStatus` must be one of the enum values; `rating` defaults to 0
and `createdAt`/`updatedAt` default to `Date.now` when absent
(src/models/Product.js).  Returns `none` on a ValidationError. -/
def buildProduct (now : Nat) (freshId : Nat) (b : ProductBody) : Option Product :=
  match b.code, b.name, b.price, b.quantity, b.inventoryStatus with
  | some code, some name, some price, some quantity, some status =>
      if validEnum status then
        some { id := freshId
               code := code
               name := name
               description := b.description
               image := b.image
               category := b.category
               price := price
               quantity := quantity
               internalReference := b.internalReference
               shellId := b.shellId
               inventoryStatus := status
               rating := b.rating.getD 0
               createdAt := b.createdAt.getD now
               updatedAt := b.updatedAt.getD now }
      else none
  | _, _, _, _, _ => none

/-- Outcome of a product-route handler: HTTP status, the JSON body's
product payload when one is returned, and the store after the request. -/
structure ProductResult where
  status : Nat
  product : Option Product
  store : Store
deriving DecidableEq, Repr

/-- `router.post('/')` in productRoutes (src/routes/authRoutes.js):
`new Product(req.body)` then `save()`; on success responds 201 with the
saved document, on a ValidationError responds 400 and persists
nothing. -/
def postProducts (now : Nat) (st : Store) (b : ProductBody) : ProductResult :=
  match buildProduct now st.nextId b with
  | some p =>
      { status := 201, product := some p
        store := { products := st.products ++ [p], nextId := st.nextId + 1 } }
  | none => { status := 400, product := none, store := st }

/-- `Product.findById(id)`: the document whose `_id` matches, if any. -/
def findById (st : Store) (i : Nat) : Option Product :=
  st.products.find? (fun p => p.id = i)

/-- `router.get('/:id')` in productRoutes: 404 `Product not found` when
`findById` yields nothing, else 200 with the document. -/
def getProductById (st : Store) (i : Nat) : ProductResult :=
  match findById st i with
  | none => { status := 404, product := none, store := st }
  | some p => { status := 200, product := some p, store := st }

/-- The `$set` portion of `findByIdAndUpdate(id, { ...req.body,
updatedAt: Date.now() }, ...)`: every field present in the body
overwrites the document's field, and `updatedAt` is set to the current
time last, overriding any client-supplied `updatedAt` (object-literal
spread semantics: the later `updatedAt:` key wins). -/
def applyUpdate (now : Nat) (p : Product) (b : ProductBody) : Product :=
  { p with
    code := b.code.getD p.code
    name := b.name.getD p.name
    description := b.description <|> p.description
    image := b.image <|> p.image
    category := b.category <|> p.category
    price := b.price.getD p.price
    quantity := b.quantity.getD p.quantity
    internalReference := b.internalReference <|> p.internalReference
    shellId := b.shellId <|> p.shellId
    inventoryStatus := b.inventoryStatus.getD p.inventoryStatus
    rating := b.rating.getD p.rating
    createdAt := b.createdAt.getD p.createdAt
    updatedAt := now }

/-- Update validation under `runValidators: true`: mongoose validates the
paths named in the update against the schema before executing it, so an
`inventoryStatus` present in the body must be a valid enum value. -/
def updateValid (b : ProductBody) : Bool :=
  match b.inventoryStatus with
  | none => true
  | some s => validEnum s

/-- `router.put('/:id')` in productRoutes:
`findByIdAndUpdate(id, { ...req.body, updatedAt: Date.now() },
{ new: true, runValidators: true })`; a ValidationError responds 400, a
missing id responds 404, success responds 200 with the updated
document. -/
def putProduct (now : Nat) (st : Store) (i : Nat) (b : ProductBody) : ProductResult :=
  if updateValid b then
    match findById st i with
    | none => { status := 404, product := none, store := st }
    | some p =>
        let q := applyUpdate now p b
        { status := 200, product := some q
          store := { st with
            products := st.products.map (fun r => if r.id = i then q else r) } }
  else { status := 400, product := none, store := st }

/-- `router.delete('/:id')` in productRoutes:
`findByIdAndDelete(id)`; 404 when nothing matches, else the matched
document is removed and the route responds 200. -/
def deleteProduct (st : Store) (i : Nat) : ProductResult :=
  match findById st i with
  | none => { status := 404, product := none, store := st }
  | some _ =>
      { status := 200, product := none
        store := { st with products := st.products.eraseP (fun p => p.id = i) } }

/-- A persisted user document.  Modelled from the spec: src/models/User.js
is required by src/routes/authRoutes.js but is absent from the sources;
per §3 a User has required `username`, `firstname`, `email`, `password`,
with the password stored only as an irreversible hash.  `passwordHash`
holds that stored hash. -/
structure User where
  id : Nat
  username : String
  firstname : String
  email : String
  passwordHash : String
deriving DecidableEq, Repr

/-- The "users" collection plus its id generator. -/
structure UserStore where
  users : List User
  nextId : Nat
deriving DecidableEq, Repr

/-- The JSON body of `POST /auth/account`: the four destructured fields,
each present or absent, plus whatever other fields the client supplied
(as key-value pairs), which the handler never reads. -/
structure RegisterBody where
  username : Option String := none
  firstname : Option String := none
  email : Option String := none
  password : Option String := none
  extraFields : List (String × String) := []
deriving DecidableEq, Repr

/-- Outcome of `POST /auth/account`: HTTP status, the saved user echoed
in the 201 body (`{ message, user: savedUser }`), and the store after
the request. -/
structure RegisterResult where
  status : Nat
  user : Option User
  store : UserStore
deriving DecidableEq, Repr

/-- `router.post('/account')` (src/routes/authRoutes.js): destructures
only `username`, `firstname`, `email`, `password` from `req.body`,
builds `new User(...)` and saves it, then responds 201 with
`{ message, user: savedUser }` — the saved document as persisted,
stored password hash included.  Modelled from the spec for the missing
src/models/User.js: all four fields are required (a missing one is a
ValidationError, 400) and `save()` stores `hash password` in place of
the plaintext (§4.1: "hashes password with a salted one-way function
before persisting").  `hash` is the process's one-way function. -/
def register (hash : String → String) (st : UserStore) (b : RegisterBody) :
    RegisterResult :=
  match b.username, b.firstname, b.email, b.password with
  | some username, some firstname, some email, some password =>
      let u : User := { id := st.nextId, username := username,
                        firstname := firstname, email := email,
                        passwordHash := hash password }
      { status := 201, user := some u
        store := { users := st.users ++ [u], nextId := st.nextId + 1 } }
  | _, _, _, _ => { status := 400, user := none, store := st }

/-- A signed JWT as produced by `generateToken`
(src/routes/authRoutes.js): `jwt.sign({ id: user._id, email: user.email },
secret, { expiresIn: '1h' })` — a payload carrying the user's id and
email, issued at `iat`, expiring at `exp`.  Seconds as naturals. -/
structure Token where
  id : Nat
  email : String
  iat : Nat
  exp : Nat
deriving DecidableEq, Repr

/-- `generateToken(user)` at issuance time `now`: the signed payload
embeds the user's id and email with `expiresIn: '1h'`, i.e. the token
expires 3600 seconds after issuance. -/
def generateToken (u : User) (now : Nat) : Token :=
  { id := u.id, email := u.email, iat := now, exp := now + 3600 }

/-- `User.findOne({ email })`: the first user whose email matches. -/
def findOne (users : List User) (email : String) : Option User :=
  users.find? (fun u => u.email = email)

/-- Outcome of `POST /auth/token`: HTTP status and the token of a 200
response. -/
structure TokenResult where
  status : Nat
  token : Option Token
deriving DecidableEq, Repr

/-- `router.post('/token')` (src/routes/authRoutes.js): looks the user
up by email, responding 404 `User not found` when absent; then
`user.comparePassword(password)`, responding 401 `Invalid credentials`
on mismatch; otherwise 200 with `generateToken(user)`.  Modelled from
the spec for the missing src/models/User.js: `comparePassword` applies
the same one-way function `hash` to the supplied password and compares
it with the stored hash (§4.1). -/
def issueToken (hash : String → String) (users : List User)
    (email password : String) (now : Nat) : TokenResult :=
  match findOne users email with
  | none => { status := 404, token := none }
  | some u =>
      if hash password = u.passwordHash then
        { status := 200, token := some (generateToken u now) }
      else { status := 401, token := none }

/-!  Request dispatch: app.js mounts `/auth` without middleware and
`/products` behind `authenticate`
(`app.use('/auth', authRoutes); app.use('/products', authenticate,
productRoutes)`). -/

/-- The bearer-token situation on an inbound request, as the middleware
sees it. -/
inductive TokenState where
  /-- No authorization header / no bearer token. -/
  | missing
  /-- A header that is present but malformed or whose signature does not
  verify against the signing key. -/
  | invalid
  /-- A well-formed, correctly signed token `t`. -/
  | signed (t : Token)
deriving DecidableEq, Repr

/-- The identity the middleware attaches to the request context. -/
structure Identity where
  id : Nat
  email : String
deriving DecidableEq, Repr

/-- Modelled from the spec: src/middleware/authMiddleware.js is required
by app.js but is absent from the sources.  Per §4.2, `authenticate`
extracts a bearer token, rejecting (401) when it is absent or malformed;
verifies signature and expiry against the process-wide key, rejecting
(401) when invalid or expired; on success attaches the decoded identity
(user id, email) and lets the request proceed. -/
def authenticate (tok : TokenState) (now : Nat) : Option Identity :=
  match tok with
  | .missing => none
  | .invalid => none
  | .signed t => if t.exp ≤ now then none else some { id := t.id, email := t.email }

/-- One inbound request to the application, with its route-specific
body. -/
inductive Req where
  | authAccount (b : RegisterBody)
  | authToken (email password : String)
  | createProduct (b : ProductBody)
  | listProducts
  | getProduct (i : Nat)
  | putProduct (i : Nat) (b : ProductBody)
  | deleteProduct (i : Nat)
deriving DecidableEq, Repr

/-- Whether the request targets the product resource path, i.e. is
routed through `app.use('/products', authenticate, productRoutes)`. -/
def Req.isProductRoute : Req → Bool
  | .authAccount _ => false
  | .authToken _ _ => false
  | _ => true

/-- The whole persistent state of the application: both collections. -/
structure AppState where
  products : Store
  users : UserStore
deriving DecidableEq, Repr

/-- A uniform HTTP response: status plus the possible JSON payloads. -/
structure Response where
  status : Nat
  product : Option Product := none
  productList : Option (List Product) := none
  user : Option User := none
  token : Option Token := none
deriving DecidableEq, Repr

/-- The per-route handlers, dispatched after any middleware has passed
(the bodies of authRoutes and productRoutes). -/
def handleRoute (hash : String → String) (now : Nat) (app : AppState) :
    Req → Response × AppState
  | .authAccount b =>
      let r := register hash app.users b
      ({ status := r.status, user := r.user }, { app with users := r.store })
  | .authToken email password =>
      let r := issueToken hash app.users.users email password now
      ({ status := r.status, token := r.token }, app)
  | .createProduct b =>
      let r := postProducts now app.products b
      ({ status := r.status, product := r.product }, { app with products := r.store })
  | .listProducts =>
      ({ status := 200, productList := some app.products.products }, app)
  | .getProduct i =>
      let r := getProductById app.products i
      ({ status := r.status, product := r.product }, app)
  | .putProduct i b =>
      let r := PMApi.putProduct now app.products i b
      ({ status := r.status, product := r.product }, { app with products := r.store })
  | .deleteProduct i =>
      let r := PMApi.deleteProduct app.products i
      ({ status := r.status, product := r.product }, { app with products := r.store })

/-- The application's request pipeline (app.js): requests under
`/products` pass through `authenticate` first and are rejected with 401
before any product handler runs when it yields no identity; requests
under `/auth` go straight to their handler. -/
def handle (hash : String → String) (now : Nat) (tok : TokenState)
    (app : AppState) (r : Req) : Response × AppState :=
  if r.isProductRoute then
    match authenticate tok now with
    | none => ({ status := 401 }, app)
    | some _ => handleRoute hash now app r
  else handleRoute hash now app r

/-! Helper lemmas and concrete fixtures. -/

/-- Inversion of `buildProduct`: a successful build carries the
store-assigned id, the defaulted timestamps and a valid enum value. -/
lemma buildProduct_fields (now fid : Nat) (b : ProductBody) (p : Product)
    (h : buildProduct now fid b = some p) :
    p.id = fid ∧ p.createdAt = b.createdAt.getD now ∧
    p.updatedAt = b.updatedAt.getD now ∧
    validEnum p.inventoryStatus = true := by
  cases hc : b.code <;> cases hn : b.name <;> cases hp : b.price <;>
    cases hq : b.quantity <;> cases hs : b.inventoryStatus <;>
    simp [buildProduct, hc, hn, hp, hq, hs] at h
  rcases h with ⟨hval, hrec⟩
  subst hrec
  simp [hval]

/-- A body whose `inventoryStatus` is present but outside the enum never
builds. -/
lemma buildProduct_invalid_enum (now fid : Nat) (b : ProductBody) (s : String)
    (hs : b.inventoryStatus = some s) (hv : validEnum s = false) :
    buildProduct now fid b = none := by
  cases hc : b.code <;> cases hn : b.name <;> cases hp : b.price <;>
    cases hq : b.quantity <;> simp [buildProduct, hc, hn, hp, hq, hs, hv]

/-- Every product in the store carries a valid `inventoryStatus`. -/
def storeEnumInv (st : Store) : Prop :=
  ∀ p ∈ st.products, validEnum p.inventoryStatus = true

/-- Creating preserves the enum invariant. -/
lemma postProducts_enumInv (now : Nat) (st : Store) (b : ProductBody)
    (hinv : storeEnumInv st) : storeEnumInv (postProducts now st b).store := by
  unfold postProducts
  cases hb : buildProduct now st.nextId b with
  | none => exact hinv
  | some p =>
      intro q hq
      simp at hq
      rcases hq with hq | hq
      · exact hinv q hq
      · exact hq ▸ (buildProduct_fields now st.nextId b p hb).2.2.2

/-- Updating preserves the enum invariant. -/
lemma putProduct_enumInv (now i : Nat) (st : Store) (b : ProductBody)
    (hinv : storeEnumInv st) : storeEnumInv (putProduct now st i b).store := by
  unfold putProduct
  split
  · rename_i hval
    cases hf : findById st i with
    | none => simpa using hinv
    | some p =>
        intro q hq
        simp [List.mem_map] at hq
        rcases hq with ⟨r, hr, hrq⟩
        by_cases hid : r.id = i
        · simp [hid] at hrq
          subst hrq
          unfold applyUpdate
          cases hbs : b.inventoryStatus with
          | none =>
              simp [hbs]
              have hpmem : p ∈ st.products := List.mem_of_find?_eq_some hf
              exact hinv p hpmem
          | some s =>
              simp [hbs]
              simpa [updateValid, hbs] using hval
        · simp [hid] at hrq
          exact hrq ▸ hinv r hr
  · simpa using hinv

/-- A store with one valid product, used for concrete checks. -/
def sampleProduct : Product :=
  { id := 0, code := "P1", name := "Widget", description := none,
    image := none, category := none, price := 5, quantity := 2,
    internalReference := none, shellId := none,
    inventoryStatus := "INSTOCK", rating := 0, createdAt := 3, updatedAt := 3 }

/-- A one-product store. -/
def sampleStore : Store := { products := [sampleProduct], nextId := 1 }

/-- A create body with every documented required field except
`category`. -/
def bodyNoCategory : ProductBody :=
  { code := some "P1", name := some "Widget", price := some 5,
    quantity := some 2, inventoryStatus := some "INSTOCK" }

/-! Claims. -/

/-- C2: every persisted product's `inventoryStatus` is one of INSTOCK,
LOWSTOCK, OUTOFSTOCK — a create or update whose `inventoryStatus` is any
other value fails with ValidationError (400) and leaves the store
unchanged, and both operations preserve the store invariant. -/
theorem inventoryStatus_enum_invariant (now i : Nat) (st : Store)
    (b : ProductBody) (s : String)
    (hs : b.inventoryStatus = some s) (hv : validEnum s = false) :
    postProducts now st b = { status := 400, product := none, store := st } ∧
    putProduct now st i b = { status := 400, product := none, store := st } ∧
    (storeEnumInv st → ∀ now2 i2 b2, storeEnumInv (postProducts now2 st b2).store ∧
      storeEnumInv (putProduct now2 st i2 b2).store) := by
  refine ⟨?_, ?_, ?_⟩
  · simp [postProducts, buildProduct_invalid_enum now st.nextId b s hs hv]
  · simp [putProduct, updateValid, hs, hv]
  · intro hinv now2 i2 b2
    exact ⟨postProducts_enumInv now2 st b2 hinv, putProduct_enumInv now2 i2 st b2 hinv⟩

/-- C2 witness: the rejection and the invariant at a concrete store and
body. -/
theorem inventoryStatus_enum_invariant_witness :
    postProducts 9 sampleStore { bodyNoCategory with inventoryStatus := some "SOLDOUT" } =
      { status := 400, product := none, store := sampleStore } :=
  (inventoryStatus_enum_invariant 9 0 sampleStore
    { bodyNoCategory with inventoryStatus := some "SOLDOUT" } "SOLDOUT"
    rfl (by decide)).1

/-- C3 (code bug): the repository's own swagger schema declares
`category` a required Product field, but `productSchema` does not mark
it `required`, so a create request missing only `category` succeeds with
201 and persists a document instead of failing with ValidationError
(400). -/
theorem create_missing_category_succeeds :
    bodyNoCategory.category = none ∧
    bodyNoCategory.code.isSome ∧ bodyNoCategory.name.isSome ∧
    bodyNoCategory.price.isSome ∧ bodyNoCategory.quantity.isSome ∧
    bodyNoCategory.inventoryStatus.isSome ∧
    (postProducts 7 { products := [], nextId := 0 } bodyNoCategory).status = 201 ∧
    (postProducts 7 { products := [], nextId := 0 } bodyNoCategory).store.products ≠ [] := by
  decide

/-- A successful update returns the document with the body's fields
applied and `updatedAt` stamped. -/
lemma putProduct_found (now i : Nat) (st : Store) (b : ProductBody) (p : Product)
    (hval : updateValid b = true) (hf : findById st i = some p) :
    putProduct now st i b =
      { status := 200, product := some (applyUpdate now p b),
        store := { st with
          products := st.products.map (fun r => if r.id = i then applyUpdate now p b else r) } } := by
  simp [putProduct, hval, hf]

/-- C4 counterexample body: an update that itself carries `createdAt`. -/
def bodyClientCreatedAt : ProductBody := { createdAt := some 99 }

/-- C4 counterexample: the product with `createdAt = 3` exists; an
update whose body carries `createdAt: 99` succeeds and the stored
document's `createdAt` becomes 99 ≠ 3 — `findByIdAndUpdate` spreads
`req.body`, so a client-supplied `createdAt` overwrites the field. -/
theorem update_can_change_createdAt :
    sampleProduct.createdAt = 3 ∧
    findById sampleStore 0 = some sampleProduct ∧
    (putProduct 10 sampleStore 0 bodyClientCreatedAt).status = 200 ∧
    ((putProduct 10 sampleStore 0 bodyClientCreatedAt).product.map
      (fun p => p.createdAt)) = some 99 := by
  decide

/-- C4 (amended): a successful update whose body does not itself carry a
`createdAt` field leaves the document's `createdAt` unchanged; the
server never stamps `createdAt`, but a client-supplied `createdAt` in
the update body does overwrite it. -/
theorem update_preserves_createdAt (now i : Nat) (st : Store) (b : ProductBody)
    (p : Product) (hb : b.createdAt = none)
    (hval : updateValid b = true) (hf : findById st i = some p) :
    (putProduct now st i b).product = some (applyUpdate now p b) ∧
    (applyUpdate now p b).createdAt = p.createdAt := by
  refine ⟨by simp [putProduct_found now i st b p hval hf], ?_⟩
  simp [applyUpdate, hb]

/-- C4 witness: an update with an empty body at a concrete store. -/
theorem update_preserves_createdAt_witness :
    (putProduct 10 sampleStore 0 {}).product = some (applyUpdate 10 sampleProduct {}) ∧
    (applyUpdate 10 sampleProduct {}).createdAt = sampleProduct.createdAt :=
  update_preserves_createdAt 10 0 sampleStore {} sampleProduct rfl rfl (by decide)

/-- C5 counterexample create body: a valid product whose client-supplied
`updatedAt` is in the future. -/
def bodyForgedUpdatedAt : ProductBody :=
  { code := some "P1", name := some "Widget", price := some 5,
    quantity := some 2, inventoryStatus := some "INSTOCK",
    updatedAt := some 100 }

/-- The store after creating `bodyForgedUpdatedAt` at server time 10. -/
def forgedStore : Store :=
  (postProducts 10 { products := [], nextId := 0 } bodyForgedUpdatedAt).store

/-- C5 counterexample: create at server time 10 honours the client's
`updatedAt: 100`; a later update at server time 50 then stamps
`updatedAt = 50 < 100`, so a successful update does not always leave
`updatedAt` ≥ its previous value. -/
theorem update_can_decrease_updatedAt :
    (postProducts 10 { products := [], nextId := 0 } bodyForgedUpdatedAt).status = 201 ∧
    ((forgedStore.products.map (fun p => p.updatedAt)) = [100]) ∧
    (putProduct 50 forgedStore 0 {}).status = 200 ∧
    ((putProduct 50 forgedStore 0 {}).product.map (fun p => p.updatedAt)) = some 50 ∧
    ¬ (100 : Nat) ≤ 50 := by
  decide

/-- C5 (amended): every successful update stamps `updatedAt` with the
server's current time, even when no other field is supplied; hence
whenever the document's previous `updatedAt` is ≤ the current server
time — in particular whenever it was server-assigned at an earlier
moment — the new `updatedAt` is ≥ the old one. -/
theorem update_advances_updatedAt (now i : Nat) (st : Store) (b : ProductBody)
    (p : Product) (hval : updateValid b = true) (hf : findById st i = some p)
    (hmono : p.updatedAt ≤ now) :
    (putProduct now st i b).product = some (applyUpdate now p b) ∧
    (applyUpdate now p b).updatedAt = now ∧
    p.updatedAt ≤ (applyUpdate now p b).updatedAt := by
  exact ⟨by simp [putProduct_found now i st b p hval hf],
    rfl, by simpa [applyUpdate] using hmono⟩

/-- C5 witness: an update with an empty body at a concrete store. -/
theorem update_advances_updatedAt_witness :
    (putProduct 10 sampleStore 0 {}).product = some (applyUpdate 10 sampleProduct {}) ∧
    (applyUpdate 10 sampleProduct {}).updatedAt = 10 ∧
    sampleProduct.updatedAt ≤ (applyUpdate 10 sampleProduct {}).updatedAt :=
  update_advances_updatedAt 10 0 sampleStore {} sampleProduct rfl (by decide) (by decide)

/-- C9: a client-supplied `updatedAt` in the update body is ignored —
the object literal `{ ...req.body, updatedAt: Date.now() }` writes the
server timestamp after the spread client fields, so the stored
`updatedAt` is the server's current time, not the client's value. -/
theorem update_ignores_client_updatedAt (now i v : Nat) (st : Store)
    (b : ProductBody) (p : Product) (_hu : b.updatedAt = some v)
    (hval : updateValid b = true) (hf : findById st i = some p) :
    (putProduct now st i b).product = some (applyUpdate now p b) ∧
    (applyUpdate now p b).updatedAt = now ∧
    (v ≠ now → (applyUpdate now p b).updatedAt ≠ v) := by
  exact ⟨by simp [putProduct_found now i st b p hval hf], rfl,
    fun hne => by simpa [applyUpdate] using fun h => hne h.symm⟩

/-- C9 witness: a concrete update carrying `updatedAt: 77` stored with
the server time 10 instead. -/
theorem update_ignores_client_updatedAt_witness :
    (putProduct 10 sampleStore 0 { updatedAt := some 77 }).product =
      some (applyUpdate 10 sampleProduct { updatedAt := some 77 }) ∧
    (applyUpdate 10 sampleProduct { updatedAt := some 77 }).updatedAt = 10 ∧
    ((77 : Nat) ≠ 10 → (applyUpdate 10 sampleProduct { updatedAt := some 77 }).updatedAt ≠ 77) :=
  update_ignores_client_updatedAt 10 0 77 sampleStore { updatedAt := some 77 }
    sampleProduct rfl rfl (by decide)

/-- After erasing the first product with id `i` from a list whose ids
are distinct, no product with id `i` remains. -/
lemma find?_eraseP_id (l : List Product) (i : Nat)
    (hnd : (l.map (fun p => p.id)).Nodup) :
    (l.eraseP (fun p => p.id = i)).find? (fun p => p.id = i) = none := by
  induction l with
  | nil => rfl
  | cons a l ih =>
      simp only [List.map_cons, List.nodup_cons, List.mem_map] at hnd
      by_cases ha : a.id = i
      · rw [List.eraseP_cons_of_pos (by simpa using ha), List.find?_eq_none]
        intro x hx
        simp only [decide_eq_true_eq]
        intro hxi
        exact hnd.1 ⟨x, hx, by rw [hxi, ha]⟩
      · rw [List.eraseP_cons_of_neg (by simpa using ha)]
        rw [List.find?_cons_of_neg _ (by simpa using ha)]
        exact ih hnd.2

/-- C7: `getById` and `delete` on an id matching no product both fail
with 404; and on a store whose ids are distinct (as store-assigned ids
are), a successful delete followed by `getById` on the same id yields
404. -/
theorem getById_delete_notFound (st : Store) (i : Nat) :
    (findById st i = none →
      getProductById st i = { status := 404, product := none, store := st } ∧
      deleteProduct st i = { status := 404, product := none, store := st }) ∧
    (∀ p, findById st i = some p → (st.products.map (fun q => q.id)).Nodup →
      (deleteProduct st i).status = 200 ∧
      getProductById (deleteProduct st i).store i =
        { status := 404, product := none, store := (deleteProduct st i).store }) := by
  constructor
  · intro hnone
    exact ⟨by simp [getProductById, hnone], by simp [deleteProduct, hnone]⟩
  · intro p hp hnd
    have hdel : deleteProduct st i =
        { status := 200, product := none,
          store := { st with products := st.products.eraseP (fun q => q.id = i) } } := by
      simp [deleteProduct, hp]
    refine ⟨by simp [hdel], ?_⟩
    have hfind : findById (deleteProduct st i).store i = none := by
      rw [hdel]
      exact find?_eraseP_id st.products i hnd
    simp [getProductById, hfind]

/-- C7 witness: at the one-product store, id 5 is absent (404 for get
and delete), and deleting id 0 then getting id 0 yields 404. -/
theorem getById_delete_notFound_witness :
    (getProductById sampleStore 5 = { status := 404, product := none, store := sampleStore } ∧
      deleteProduct sampleStore 5 = { status := 404, product := none, store := sampleStore }) ∧
    ((deleteProduct sampleStore 0).status = 200 ∧
      getProductById (deleteProduct sampleStore 0).store 0 =
        { status := 404, product := none, store := (deleteProduct sampleStore 0).store }) :=
  ⟨(getById_delete_notFound sampleStore 5).1 (by decide),
   (getById_delete_notFound sampleStore 0).2 sampleProduct (by decide) (by decide)⟩

/-- A user fixture for concrete checks, with password hash under the
sample one-way function `fun s => s ++ "#h"`. -/
def sampleUser : User :=
  { id := 0, username := "HB", firstname := "hamza",
    email := "a@b.com", passwordHash := "pw123#h" }

/-- A sample one-way function for concrete checks. -/
def sampleHash (s : String) : String := s ++ "#h"

/-- C6: token issuance responds 404 when no user has the supplied
email, 401 when the password's hash does not match the stored hash, and
otherwise 200 with a signed token embedding exactly that user's id and
email, expiring 3600 seconds (1 hour) after issuance. -/
theorem issueToken_cases (hash : String → String) (users : List User)
    (email password : String) (now : Nat) :
    (findOne users email = none →
      issueToken hash users email password now = { status := 404, token := none }) ∧
    (∀ u, findOne users email = some u → hash password ≠ u.passwordHash →
      issueToken hash users email password now = { status := 401, token := none }) ∧
    (∀ u, findOne users email = some u → hash password = u.passwordHash →
      issueToken hash users email password now =
        { status := 200,
          token := some { id := u.id, email := u.email, iat := now, exp := now + 3600 } }) := by
  refine ⟨fun hnone => by simp [issueToken, hnone], ?_, ?_⟩
  · intro u hu hne
    simp [issueToken, hu, hne]
  · intro u hu heq
    simp [issueToken, hu, heq, generateToken]

/-- C6 witness: the three branches at a concrete user list. -/
theorem issueToken_cases_witness :
    issueToken sampleHash [sampleUser] "x@y.com" "pw123" 50 = { status := 404, token := none } ∧
    issueToken sampleHash [sampleUser] "a@b.com" "wrong" 50 = { status := 401, token := none } ∧
    issueToken sampleHash [sampleUser] "a@b.com" "pw123" 50 =
      { status := 200, token := some { id := 0, email := "a@b.com", iat := 50, exp := 3650 } } :=
  ⟨(issueToken_cases sampleHash [sampleUser] "x@y.com" "pw123" 50).1 (by decide),
   (issueToken_cases sampleHash [sampleUser] "a@b.com" "wrong" 50).2.1 sampleUser
     (by decide) (by decide),
   (issueToken_cases sampleHash [sampleUser] "a@b.com" "pw123" 50).2.2 sampleUser
     (by decide) (by decide)⟩

/-- C8 counterexample body: a valid create body carrying its own
`createdAt`. -/
def bodyClientTimestamps : ProductBody :=
  { code := some "P1", name := some "Widget", price := some 5,
    quantity := some 2, inventoryStatus := some "INSTOCK",
    createdAt := some 5 }

/-- C8 counterexample: a valid create at server time 10 whose body
carries `createdAt: 5` succeeds and stores `createdAt = 5`, not the
server's current time — the schema defaults apply only when the client
omits the field. -/
theorem create_honours_client_createdAt :
    (postProducts 10 { products := [], nextId := 0 } bodyClientTimestamps).status = 201 ∧
    ((postProducts 10 { products := [], nextId := 0 } bodyClientTimestamps).product.map
      (fun p => p.createdAt)) = some 5 ∧
    (5 : Nat) ≠ 10 := by
  decide

/-- C8 (amended): a valid create persists the record with the
store-assigned id, and `createdAt`/`updatedAt` are both the server's
current creation time whenever the client does not supply them; a
client-supplied `createdAt` or `updatedAt` is honoured instead. -/
theorem create_assigns_id_and_timestamps (now : Nat) (st : Store)
    (b : ProductBody) (p : Product)
    (hc : b.createdAt = none) (hu : b.updatedAt = none)
    (hbuild : buildProduct now st.nextId b = some p) :
    postProducts now st b =
      { status := 201, product := some p,
        store := { products := st.products ++ [p], nextId := st.nextId + 1 } } ∧
    p.id = st.nextId ∧ p.createdAt = now ∧ p.updatedAt = now := by
  obtain ⟨hid, hcr, hup, _⟩ := buildProduct_fields now st.nextId b p hbuild
  exact ⟨by simp [postProducts, hbuild], hid, by simpa [hc] using hcr,
    by simpa [hu] using hup⟩

/-- The document that creating `bodyNoCategory` at server time 7 in an
empty store persists. -/
def createdAt7 : Product :=
  { id := 0, code := "P1", name := "Widget", description := none,
    image := none, category := none, price := 5, quantity := 2,
    internalReference := none, shellId := none,
    inventoryStatus := "INSTOCK", rating := 0, createdAt := 7, updatedAt := 7 }

/-- C8 witness: the create body with no client timestamps at server
time 7. -/
theorem create_assigns_id_and_timestamps_witness :
    postProducts 7 { products := [], nextId := 0 } bodyNoCategory =
      { status := 201, product := some createdAt7,
        store := { products := [createdAt7], nextId := 1 } } ∧
    createdAt7.id = 0 ∧ createdAt7.createdAt = 7 ∧ createdAt7.updatedAt = 7 :=
  create_assigns_id_and_timestamps 7 { products := [], nextId := 0 }
    bodyNoCategory createdAt7 rfl rfl (by decide)

/-- The user record `POST /auth/account` persists: exactly the four
destructured body fields plus the store-assigned id, with the password
replaced by its hash. -/
def mkUser (i : Nat) (un fn em hashed : String) : User :=
  { id := i, username := un, firstname := fn, email := em, passwordHash := hashed }

/-- C10: a registration with the four fields present responds 201 with
the saved record exactly as persisted — the stored password hash
included, not a redacted view — and only `username`, `firstname`,
`email`, `password` are read from the body: any other supplied field
leaves the outcome unchanged. -/
theorem register_echoes_saved_user (hash : String → String) (st : UserStore)
    (b : RegisterBody) (un fn em pw : String)
    (h1 : b.username = some un) (h2 : b.firstname = some fn)
    (h3 : b.email = some em) (h4 : b.password = some pw) :
    register hash st b =
      { status := 201,
        user := some (mkUser st.nextId un fn em (hash pw)),
        store := { users := st.users ++ [mkUser st.nextId un fn em (hash pw)],
                   nextId := st.nextId + 1 } } ∧
    (∀ extra, register hash st { b with extraFields := extra } = register hash st b) := by
  constructor
  · simp [register, h1, h2, h3, h4, mkUser]
  · intro extra
    simp [register]

/-- C10 witness: a concrete registration carrying an extra field. -/
theorem register_echoes_saved_user_witness :
    register sampleHash { users := [], nextId := 0 }
        { username := some "HB", firstname := some "hamza",
          email := some "a@b.com", password := some "pw123",
          extraFields := [("admin", "true")] } =
      { status := 201, user := some (mkUser 0 "HB" "hamza" "a@b.com" (sampleHash "pw123")),
        store := { users := [mkUser 0 "HB" "hamza" "a@b.com" (sampleHash "pw123")],
                   nextId := 1 } } := by
  have h := (register_echoes_saved_user sampleHash { users := [], nextId := 0 }
    { username := some "HB", firstname := some "hamza",
      email := some "a@b.com", password := some "pw123",
      extraFields := [("admin", "true")] }
    "HB" "hamza" "a@b.com" "pw123" rfl rfl rfl rfl).1
  simpa using h

/-- An application-state fixture for concrete checks. -/
def sampleApp : AppState :=
  { products := sampleStore, users := { users := [sampleUser], nextId := 1 } }

/-- C1: a missing, invalid or expired bearer token is rejected by the
middleware; every request under the product path whose token the
middleware rejects gets a 401 and leaves the state untouched — no
product handler runs — while `POST /auth/account` and
`POST /auth/token` are dispatched straight to their handlers whatever
the token state, including no token at all. -/
theorem products_guarded_auth_exempt (hash : String → String) (now : Nat)
    (tok : TokenState) (app : AppState) (r : Req) (t : Token) :
    authenticate .missing now = none ∧
    authenticate .invalid now = none ∧
    (t.exp ≤ now → authenticate (.signed t) now = none) ∧
    (r.isProductRoute = true → authenticate tok now = none →
      handle hash now tok app r = ({ status := 401 }, app)) ∧
    (∀ b, handle hash now tok app (.authAccount b) =
      handleRoute hash now app (.authAccount b)) ∧
    (∀ em pw, handle hash now tok app (.authToken em pw) =
      handleRoute hash now app (.authToken em pw)) := by
  refine ⟨rfl, rfl, ?_, ?_, fun b => rfl, fun em pw => rfl⟩
  · intro hexp
    simp [authenticate, hexp]
  · intro hr hrej
    simp [handle, hr, hrej]

/-- C1 witness: a tokenless GET under `/products` is a 401 that leaves
the state untouched, an expired token is rejected, and a tokenless
`POST /auth/token` reaches its handler. -/
theorem products_guarded_auth_exempt_witness :
    authenticate (.signed { id := 0, email := "a@b.com", iat := 1, exp := 40 }) 50 = none ∧
    handle sampleHash 50 .missing sampleApp (.getProduct 0) = ({ status := 401 }, sampleApp) ∧
    handle sampleHash 50 .missing sampleApp (.authToken "a@b.com" "pw123") =
      handleRoute sampleHash 50 sampleApp (.authToken "a@b.com" "pw123") := by
  have h := products_guarded_auth_exempt sampleHash 50 .missing sampleApp
    (.getProduct 0) { id := 0, email := "a@b.com", iat := 1, exp := 40 }
  exact ⟨h.2.2.1 (by decide), h.2.2.2.1 rfl rfl, h.2.2.2.2.2 "a@b.com" "pw123"⟩

end PMApi
